import Mathlib

/-!
Verification of the COVID-19 Global Data Tracker metrics pipeline.

The notebook `covid19_global_tracker.ipynb` loads the OWID COVID-19 CSV,
scopes it to a set of countries, drops rows with missing case/death counts,
derives metric columns (death rate, per-million rates, 7-day rolling
averages) and extracts a latest-per-country snapshot.  This file embeds
those pandas operations shallowly: a data-frame cell is an extended value
(finite rational, signed infinity, or not-a-number, mirroring IEEE float
semantics exactly on the operations the notebook uses), a row is a
location, a date and an association list of named cells, and each notebook
operation becomes a Lean function on tables.
-/

namespace CovidTracker

/-- A data-frame cell: not-a-number (also the representation of a missing
value, as in a pandas float column), a signed infinity, or a finite
rational standing in for a finite float. -/
inductive EV where
  | nan : EV
  | inf : Bool → EV
  | fin : ℚ → EV
deriving DecidableEq, Repr

/-- `true` exactly on the not-a-number cell (pandas `isnull` on a float cell). -/
def EV.isNan : EV → Bool
  | .nan => true
  | _ => false

/-- IEEE-style addition on cells: not-a-number propagates, infinities of
equal sign combine, opposite signs give not-a-number. -/
def evAdd : EV → EV → EV
  | .nan, _ => .nan
  | _, .nan => .nan
  | .inf s, .inf t => if s = t then .inf s else .nan
  | .inf s, .fin _ => .inf s
  | .fin _, .inf t => .inf t
  | .fin a, .fin b => .fin (a + b)

/-- IEEE-style division on cells: not-a-number propagates, `x / 0` is a
signed infinity for `x ≠ 0` and not-a-number for `x = 0` — exactly what a
pandas float division produces. -/
def evDiv : EV → EV → EV
  | .nan, _ => .nan
  | _, .nan => .nan
  | .inf _, .inf _ => .nan
  | .inf s, .fin b => if b < 0 then .inf (!s) else .inf s
  | .fin _, .inf _ => .fin 0
  | .fin a, .fin b =>
      if b = 0 then (if a = 0 then .nan else .inf (decide (0 < a))) else .fin (a / b)

/-- IEEE-style multiplication on cells: not-a-number propagates,
`infinity * 0` is not-a-number, otherwise signs multiply. -/
def evMul : EV → EV → EV
  | .nan, _ => .nan
  | _, .nan => .nan
  | .inf s, .inf t => .inf (s == t)
  | .inf s, .fin b => if b = 0 then .nan else .inf (s == decide (0 < b))
  | .fin a, .inf t => if a = 0 then .nan else .inf (t == decide (0 < a))
  | .fin a, .fin b => .fin (a * b)

/-- One observation row: an entity label (`location`), a date (encoded as a
natural number preserving order), and the named numeric cells. -/
structure Row where
  location : String
  date : Nat
  vals : List (String × EV)
deriving DecidableEq, Repr

/-- A data frame: the set of numeric column names and the rows, in order. -/
structure Table where
  cols : List String
  rows : List Row
deriving DecidableEq, Repr

/-- First binding of a column name in a row's cell list. -/
def lookupV : List (String × EV) → String → Option EV
  | [], _ => none
  | (c', v) :: rest, c => if c' = c then some v else lookupV rest c

/-- Read a cell of a row; a column with no binding reads as not-a-number,
as a pandas row does for a column it has no value in. -/
def Row.get (r : Row) (c : String) : EV :=
  match lookupV r.vals c with
  | some v => v
  | none => .nan

/-- Overwrite the first binding of a column, or append one — the effect of
a pandas column assignment on one row. -/
def setVal : List (String × EV) → String → EV → List (String × EV)
  | [], c, v => [(c, v)]
  | (c', v') :: rest, c, v =>
      if c' = c then (c, v) :: rest else (c', v') :: setVal rest c v

/-- Row with one cell overwritten (or added). -/
def Row.set (r : Row) (c : String) (v : EV) : Row :=
  { r with vals := setVal r.vals c v }

/-- View of an `Except` as a sum, to decide equality of outcomes. -/
def exceptToSum {ε α : Type} : Except ε α → ε ⊕ α
  | .error e => .inl e
  | .ok a => .inr a

instance {ε α : Type} [DecidableEq ε] [DecidableEq α] : DecidableEq (Except ε α) := fun a b =>
  decidable_of_iff (exceptToSum a = exceptToSum b) (by
    cases a <;> cases b <;> simp [exceptToSum])

/-- Date comparison between rows. -/
def rowLE (a b : Row) : Prop := a.date ≤ b.date

instance : DecidableRel rowLE := fun a b => Nat.decLe a.date b.date

instance : IsTotal Row rowLE := ⟨fun a b => Nat.le_total a.date b.date⟩

instance : IsTrans Row rowLE := ⟨fun _ _ _ h h' => Nat.le_trans h h'⟩

/-- Embeds `df_clean.sort_values('date')`: sort the rows of a table by
date (a stable sort standing in for the pandas sort). -/
def sortByDate (t : Table) : Table :=
  { t with rows := List.insertionSort rowLE t.rows }

/-- Embeds the ingestion cell: `try: df = pd.read_csv(url) ... except ...
try: df = pd.read_csv('owid-covid-data.csv') ... except ... print(...)`.
The two arguments are the outcomes of the remote and the local read.  The
outer `Except` is the Python cell boundary (`.error` would be an uncaught
exception escaping the cell); the inner `Option` records whether `df` got
bound; the list is the printed output.  Both read failures are caught by
the cell's handlers, so the function never returns `.error`: on a double
failure it returns `.ok (none, messages)` — the cell finishes normally
with `df` unbound. -/
def load_observations (remote : Except String Table) (localFile : Except String Table) :
    Except String (Option Table × List String) :=
  match remote with
  | .ok t => .ok (some t, ["Data loaded successfully from URL."])
  | .error e =>
      match localFile with
      | .ok t =>
          .ok (some t, ["Error loading data from URL: " ++ e,
                        "Attempting to load from local file...",
                        "Data loaded successfully from local file."])
      | .error e2 =>
          .ok (none, ["Error loading data from URL: " ++ e,
                      "Attempting to load from local file...",
                      "Error loading data from local file: " ++ e2,
                      "Please ensure the owid-covid-data.csv file is in your current working directory."])

/-- Embeds `df_countries = df[df['location'].isin(countries_of_interest)]`:
keep the rows whose location is in the given set, all columns unchanged. -/
def scope_to_entities (t : Table) (names : List String) : Table :=
  { t with rows := t.rows.filter (fun r => decide (r.location ∈ names)) }

/-- Embeds `df.dropna(subset=required)`: keep the rows whose cells in every
required column are non-null.  As in pandas, naming a column the table
does not have is an error (`KeyError`); the notebook only calls this with
columns it has checked to be present. -/
def filter_complete (t : Table) (required : List String) : Except String Table :=
  if required.all (fun c => decide (c ∈ t.cols)) then
    .ok { t with rows := t.rows.filter (fun r => required.all (fun c => !(r.get c).isNan)) }
  else
    .error "KeyError: a column of the subset is not in the frame"

/-- If the column is already in the column set, keep the set; otherwise
append it — the effect of a pandas column assignment on `df.columns`. -/
def addCol (cs : List String) (c : String) : List String :=
  if c ∈ cs then cs else cs ++ [c]

/-- `total_deaths / total_cases * 100`, read from a row. -/
def drVal (r : Row) : EV :=
  evMul (evDiv (r.get "total_deaths") (r.get "total_cases")) (.fin 100)

/-- `total_cases / population * 1000000`, read from a row. -/
def cpmVal (r : Row) : EV :=
  evMul (evDiv (r.get "total_cases") (r.get "population")) (.fin 1000000)

/-- `total_deaths / population * 1000000`, read from a row. -/
def dpmVal (r : Row) : EV :=
  evMul (evDiv (r.get "total_deaths") (r.get "population")) (.fin 1000000)

/-- Row part of the metric-derivation cell: always assign
`death_rate = total_deaths / total_cases * 100`; when the table has a
`population` column additionally assign
`cases_per_million = total_cases / population * 1000000` and
`deaths_per_million = total_deaths / population * 1000000`.  Each value is
read from the frame as it stands after the previous assignment, exactly
as the notebook's successive `df_clean[...] = ...` statements do. -/
def deriveRow (hasPop : Bool) (r : Row) : Row :=
  let r1 := r.set "death_rate" (drVal r)
  if hasPop then
    let r2 := r1.set "cases_per_million" (cpmVal r1)
    r2.set "deaths_per_million" (dpmVal r2)
  else r1

/-- Embeds the metric-derivation cell on a whole table, including its
`if 'population' in df_clean.columns:` presence test. -/
def derive_metrics (t : Table) : Table :=
  let hasPop := decide ("population" ∈ t.cols)
  { cols :=
      (let c1 := addCol t.cols "death_rate"
       if hasPop then addCol (addCol c1 "cases_per_million") "deaths_per_million" else c1),
    rows := t.rows.map (deriveRow hasPop) }

/-- The trailing window of width `w` ending at position `i` (positions
`i + 1 - w` through `i`). -/
def windowAt (xs : List EV) (i w : Nat) : List EV :=
  (xs.take (i + 1)).drop (i + 1 - w)

/-- Embeds `series.rolling(window=w).mean()` with the default
`min_periods = w`: position `i` is not-a-number while fewer than `w`
observations are available, and otherwise the mean of the trailing `w`
cells — not-a-number as soon as the window holds a not-a-number cell,
since a null observation keeps the valid count below `min_periods`. -/
def rollingMean (w : Nat) (xs : List EV) : List EV :=
  (List.range xs.length).map
    (fun i => if i + 1 < w then EV.nan else evDiv ((windowAt xs i w).foldl evAdd (EV.fin 0)) (EV.fin w))

/-- The cells of one column along one entity's rows, in the table's row
order — embeds `df_clean[df_clean['location'] == country][col]`. -/
def entitySeries (t : Table) (c : String) (loc : String) : List EV :=
  (t.rows.filter (fun r => r.location == loc)).map (fun r => r.get c)

/-- Embeds the smoothing cells: `country_data = df_clean[df_clean['location']
== country]; country_data['new_cases'].rolling(window=7).mean()`.  Note the
notebook rolls over the rows in the order they sit in `df_clean`; it does
not sort them by date first. -/
def smoothedSeries (t : Table) (loc : String) : List EV :=
  rollingMean 7 (entitySeries t "new_cases" loc)

/-- Count of not-a-number cells at the front of a series. -/
def leadingNans : List EV → Nat
  | [] => 0
  | x :: xs => if x.isNan then leadingNans xs + 1 else 0

/-- Last non-null cell of a series, not-a-number if there is none — the
per-column behaviour of `groupby(...).last()`. -/
def lastNonNan (l : List EV) : EV :=
  ((l.filter (fun v => !v.isNan)).getLast?).getD EV.nan

/-- One entity's rows of the date-sorted table, in sorted order. -/
def entitySorted (t : Table) (loc : String) : List Row :=
  (sortByDate t).rows.filter (fun r => r.location == loc)

/-- Embeds `df_clean.sort_values('date').groupby('location').last()` for
one group: sort by date, restrict to the entity, and take — column by
column — the last non-null cell (the pandas `last` aggregation skips
nulls per column).  The date of the produced row is the entity's maximum
date; an entity with no rows produces no group. -/
def latestRow (t : Table) (loc : String) : Option Row :=
  match (entitySorted t loc).getLast? with
  | none => none
  | some lastR =>
      some { location := loc, date := lastR.date,
             vals := t.cols.map (fun c => (c, lastNonNan ((entitySorted t loc).map (fun r => r.get c)))) }

/-- Row with the three case/death columns, for concrete test tables. -/
def mkRow (loc : String) (d : Nat) (tc td : ℚ) (nc : EV) : Row :=
  ⟨loc, d, [("total_cases", .fin tc), ("total_deaths", .fin td), ("new_cases", nc)]⟩

/-- One entity, one row with zero reported cases but three reported deaths
(both cells non-null, so the row survives completeness filtering). -/
def exT1 : Table :=
  { cols := ["total_cases", "total_deaths"],
    rows := [⟨"A", 1, [("total_cases", .fin 0), ("total_deaths", .fin 3)]⟩] }

/-- One entity, seven date-ordered rows whose first `new_cases` cell is
null while every case/death cell is non-null. -/
def exT2 : Table :=
  { cols := ["total_cases", "total_deaths", "new_cases"],
    rows := [mkRow "A" 1 1 0 EV.nan, mkRow "A" 2 1 0 (.fin 1), mkRow "A" 3 1 0 (.fin 1),
             mkRow "A" 4 1 0 (.fin 1), mkRow "A" 5 1 0 (.fin 1), mkRow "A" 6 1 0 (.fin 1),
             mkRow "A" 7 1 0 (.fin 1)] }

/-- One entity, eight rows NOT in date order: the date-1 observation (with
a distinctive `new_cases` value) sits last in the file. -/
def exT3 : Table :=
  { cols := ["total_cases", "total_deaths", "new_cases"],
    rows := [mkRow "A" 2 1 0 (.fin 1), mkRow "A" 3 1 0 (.fin 1), mkRow "A" 4 1 0 (.fin 1),
             mkRow "A" 5 1 0 (.fin 1), mkRow "A" 6 1 0 (.fin 1), mkRow "A" 7 1 0 (.fin 1),
             mkRow "A" 8 1 0 (.fin 1), mkRow "A" 1 1 0 (.fin 8)] }

/-- One entity, two rows; the later-dated row has a null `new_cases` cell. -/
def exT5 : Table :=
  { cols := ["total_cases", "total_deaths", "new_cases"],
    rows := [mkRow "A" 1 5 1 (.fin 5), mkRow "A" 2 6 2 EV.nan] }

/-- One entity, two rows, every cell of the later-dated row non-null. -/
def exT5w : Table :=
  { cols := ["total_cases", "total_deaths", "new_cases"],
    rows := [mkRow "A" 1 5 1 (.fin 5), mkRow "A" 2 6 2 (.fin 7)] }

/-- The two-row completeness example: first row has a null `total_deaths`. -/
def exT6 : Table :=
  { cols := ["total_cases", "total_deaths"],
    rows := [⟨"A", 1, [("total_cases", .fin 5), ("total_deaths", EV.nan)]⟩,
             ⟨"A", 2, [("total_cases", .fin 5), ("total_deaths", .fin 1)]⟩] }

/-- Two entities for scoping tests. -/
def exT7 : Table :=
  { cols := ["total_cases"],
    rows := [⟨"United States", 1, [("total_cases", .fin 1)]⟩,
             ⟨"Kenya", 2, [("total_cases", .fin 2)]⟩] }

/-- One row, with a population column present. -/
def exT8p : Table :=
  { cols := ["total_cases", "total_deaths", "population"],
    rows := [⟨"A", 1, [("total_cases", .fin 10), ("total_deaths", .fin 2),
                       ("population", .fin 1000)]⟩] }

/-- One row, no population column. -/
def exT8n : Table :=
  { cols := ["total_cases", "total_deaths"],
    rows := [⟨"A", 1, [("total_cases", .fin 10), ("total_deaths", .fin 2)]⟩] }

/-- One entity, eight date-ordered rows; only the last `new_cases` cell is
null, all case/death cells are non-null. -/
def exT10 : Table :=
  { cols := ["total_cases", "total_deaths", "new_cases"],
    rows := [mkRow "A" 1 1 0 (.fin 1), mkRow "A" 2 1 0 (.fin 1), mkRow "A" 3 1 0 (.fin 1),
             mkRow "A" 4 1 0 (.fin 1), mkRow "A" 5 1 0 (.fin 1), mkRow "A" 6 1 0 (.fin 1),
             mkRow "A" 7 1 0 (.fin 1), mkRow "A" 8 1 0 EV.nan] }

/-! ### Association-list and cell lemmas -/

theorem lookupV_setVal_self (l : List (String × EV)) (c : String) (v : EV) :
    lookupV (setVal l c v) c = some v := by
  induction l with
  | nil => simp [setVal, lookupV]
  | cons p rest ih =>
      obtain ⟨a, b⟩ := p
      by_cases ha : a = c
      · simp [setVal, ha, lookupV]
      · simp [setVal, ha, lookupV, ih]

theorem lookupV_setVal_ne (l : List (String × EV)) (c c' : String) (v : EV) (h : c' ≠ c) :
    lookupV (setVal l c v) c' = lookupV l c' := by
  induction l with
  | nil => simp [setVal, lookupV, if_neg (Ne.symm h)]
  | cons p rest ih =>
      obtain ⟨a, b⟩ := p
      by_cases ha : a = c
      · subst ha
        simp [setVal, lookupV, if_neg (Ne.symm h)]
      · simp [setVal, ha, lookupV, ih]

theorem setVal_eq_of_lookup (l : List (String × EV)) (c : String) (v : EV)
    (h : lookupV l c = some v) : setVal l c v = l := by
  induction l with
  | nil => simp [lookupV] at h
  | cons p rest ih =>
      obtain ⟨a, b⟩ := p
      by_cases ha : a = c
      · subst ha
        simp [lookupV] at h
        simp [setVal, h]
      · simp [lookupV, ha] at h
        simp [setVal, ha, ih h]

theorem Row.get_set_self (r : Row) (c : String) (v : EV) : (r.set c v).get c = v := by
  simp [Row.get, Row.set, lookupV_setVal_self]

theorem Row.get_set_ne (r : Row) (c c' : String) (v : EV) (h : c' ≠ c) :
    (r.set c v).get c' = r.get c' := by
  simp [Row.get, Row.set, lookupV_setVal_ne _ _ _ _ h]

theorem Row.get_of_lookup (r : Row) (c : String) (v : EV)
    (h : lookupV r.vals c = some v) : r.get c = v := by
  simp [Row.get, h]

theorem Row.set_eq_of_lookup (r : Row) (c : String) (v : EV)
    (h : lookupV r.vals c = some v) : r.set c v = r := by
  simp [Row.set, setVal_eq_of_lookup _ _ _ h]

theorem lookupV_map_self (cs : List String) (f : String → EV) (c : String) (h : c ∈ cs) :
    lookupV (cs.map (fun c' => (c', f c'))) c = some (f c) := by
  induction cs with
  | nil => cases h
  | cons a rest ih =>
      by_cases ha : a = c
      · subst ha
        simp [lookupV]
      · rcases List.mem_cons.mp h with h' | h'
        · exact absurd h'.symm ha
        · simp [lookupV, ha, ih h']

theorem mem_addCol (cs : List String) (c x : String) : x ∈ addCol cs c ↔ x ∈ cs ∨ x = c := by
  unfold addCol
  by_cases h : c ∈ cs
  · simp only [if_pos h]
    exact ⟨Or.inl, fun hx => hx.elim id (fun he => he ▸ h)⟩
  · simp only [if_neg h, List.mem_append, List.mem_singleton]

theorem addCol_of_mem (cs : List String) (c : String) (h : c ∈ cs) : addCol cs c = cs := by
  simp [addCol, h]

/-! ### Arithmetic propagation lemmas -/

theorem evAdd_nan_left (x : EV) : evAdd EV.nan x = EV.nan := by cases x <;> rfl

theorem evAdd_nan_right (x : EV) : evAdd x EV.nan = EV.nan := by cases x <;> rfl

theorem foldl_evAdd_nan_acc (l : List EV) : l.foldl evAdd EV.nan = EV.nan := by
  induction l with
  | nil => rfl
  | cons x xs ih => simpa [List.foldl, evAdd_nan_left] using ih

theorem foldl_evAdd_of_mem_nan (l : List EV) (acc : EV) (h : EV.nan ∈ l) :
    l.foldl evAdd acc = EV.nan := by
  induction l generalizing acc with
  | nil => cases h
  | cons x xs ih =>
      rcases List.mem_cons.mp h with hx | hx
      · subst hx
        simp [List.foldl, evAdd_nan_right, foldl_evAdd_nan_acc]
      · exact ih _ hx

/-! ### Rolling-window lemmas -/

theorem rollingMean_length (w : Nat) (xs : List EV) : (rollingMean w xs).length = xs.length := by
  simp [rollingMean]

theorem rollingMean_getElem (w : Nat) (xs : List EV) (i : Nat) (h : i < xs.length) :
    (rollingMean w xs)[i]? =
      some (if i + 1 < w then EV.nan
            else evDiv ((windowAt xs i w).foldl evAdd (EV.fin 0)) (EV.fin w)) := by
  simp [rollingMean, List.getElem?_map, List.getElem?_range, h]

theorem windowAt_length (xs : List EV) (i w : Nat) (h1 : w ≤ i + 1) (h2 : i < xs.length) :
    (windowAt xs i w).length = w := by
  simp only [windowAt, List.length_drop, List.length_take]
  omega

/-! ### Metric-derivation lemmas -/

theorem drVal_set_ne (r : Row) (c : String) (v : EV)
    (h1 : ("total_deaths" : String) ≠ c) (h2 : ("total_cases" : String) ≠ c) :
    drVal (r.set c v) = drVal r := by
  simp [drVal, Row.get_set_ne _ _ _ _ h1, Row.get_set_ne _ _ _ _ h2]

theorem cpmVal_set_ne (r : Row) (c : String) (v : EV)
    (h1 : ("total_cases" : String) ≠ c) (h2 : ("population" : String) ≠ c) :
    cpmVal (r.set c v) = cpmVal r := by
  simp [cpmVal, Row.get_set_ne _ _ _ _ h1, Row.get_set_ne _ _ _ _ h2]

theorem dpmVal_set_ne (r : Row) (c : String) (v : EV)
    (h1 : ("total_deaths" : String) ≠ c) (h2 : ("population" : String) ≠ c) :
    dpmVal (r.set c v) = dpmVal r := by
  simp [dpmVal, Row.get_set_ne _ _ _ _ h1, Row.get_set_ne _ _ _ _ h2]

theorem deriveRow_false_eq (r : Row) : deriveRow false r = r.set "death_rate" (drVal r) := rfl

theorem deriveRow_true_eq (r : Row) :
    deriveRow true r =
      ((r.set "death_rate" (drVal r)).set "cases_per_million" (cpmVal r)).set
        "deaths_per_million" (dpmVal r) := by
  simp only [deriveRow, if_true]
  rw [cpmVal_set_ne _ _ _ (by decide) (by decide),
    dpmVal_set_ne _ _ _ (by decide) (by decide),
    dpmVal_set_ne _ _ _ (by decide) (by decide)]

theorem set3_absorb (r : Row) (c1 c2 c3 : String) (v1 v2 v3 : EV)
    (h12 : c1 ≠ c2) (h13 : c1 ≠ c3) (h23 : c2 ≠ c3) :
    (((((r.set c1 v1).set c2 v2).set c3 v3).set c1 v1).set c2 v2).set c3 v3 =
      ((r.set c1 v1).set c2 v2).set c3 v3 := by
  have l1 : lookupV (((r.set c1 v1).set c2 v2).set c3 v3).vals c1 = some v1 := by
    simp only [Row.set]
    rw [lookupV_setVal_ne _ _ _ _ h13, lookupV_setVal_ne _ _ _ _ h12, lookupV_setVal_self]
  rw [Row.set_eq_of_lookup _ _ _ l1]
  have l2 : lookupV (((r.set c1 v1).set c2 v2).set c3 v3).vals c2 = some v2 := by
    simp only [Row.set]
    rw [lookupV_setVal_ne _ _ _ _ h23, lookupV_setVal_self]
  rw [Row.set_eq_of_lookup _ _ _ l2]
  exact Row.set_eq_of_lookup _ _ _ (by simp only [Row.set]; rw [lookupV_setVal_self])

theorem deriveRow_idem (hp : Bool) (r : Row) : deriveRow hp (deriveRow hp r) = deriveRow hp r := by
  cases hp with
  | false =>
      rw [deriveRow_false_eq, deriveRow_false_eq,
        drVal_set_ne _ _ _ (by decide) (by decide)]
      exact Row.set_eq_of_lookup _ _ _ (by simp only [Row.set]; rw [lookupV_setVal_self])
  | true =>
      rw [deriveRow_true_eq, deriveRow_true_eq]
      rw [drVal_set_ne _ _ _ (by decide) (by decide),
        drVal_set_ne _ _ _ (by decide) (by decide),
        drVal_set_ne _ _ _ (by decide) (by decide)]
      rw [cpmVal_set_ne _ _ _ (by decide) (by decide),
        cpmVal_set_ne _ _ _ (by decide) (by decide),
        cpmVal_set_ne _ _ _ (by decide) (by decide)]
      rw [dpmVal_set_ne _ _ _ (by decide) (by decide),
        dpmVal_set_ne _ _ _ (by decide) (by decide),
        dpmVal_set_ne _ _ _ (by decide) (by decide)]
      exact set3_absorb _ _ _ _ _ _ _ (by decide) (by decide) (by decide)

theorem deriveRow_death_rate (hp : Bool) (r : Row) :
    (deriveRow hp r).get "death_rate" = drVal r := by
  cases hp with
  | false => rw [deriveRow_false_eq, Row.get_set_self]
  | true =>
      rw [deriveRow_true_eq, Row.get_set_ne _ _ _ _ (by decide),
        Row.get_set_ne _ _ _ _ (by decide), Row.get_set_self]

theorem deriveRow_cases_per_million (r : Row) :
    (deriveRow true r).get "cases_per_million" = cpmVal r := by
  rw [deriveRow_true_eq, Row.get_set_ne _ _ _ _ (by decide), Row.get_set_self]

theorem deriveRow_deaths_per_million (r : Row) :
    (deriveRow true r).get "deaths_per_million" = dpmVal r := by
  rw [deriveRow_true_eq, Row.get_set_self]

theorem deriveRow_false_lookup (r : Row) (c : String) (h : c ≠ "death_rate") :
    lookupV (deriveRow false r).vals c = lookupV r.vals c := by
  rw [deriveRow_false_eq]
  simp only [Row.set]
  exact lookupV_setVal_ne _ _ _ _ h

theorem derive_metrics_rows (t : Table) :
    (derive_metrics t).rows = t.rows.map (deriveRow (decide ("population" ∈ t.cols))) := rfl

theorem derive_metrics_cols (t : Table) :
    (derive_metrics t).cols =
      (let c1 := addCol t.cols "death_rate"
       if "population" ∈ t.cols then
         addCol (addCol c1 "cases_per_million") "deaths_per_million"
       else c1) := by
  by_cases h : "population" ∈ t.cols <;> simp [derive_metrics, h]

theorem mem_derive_metrics_cols (t : Table) (x : String) :
    x ∈ (derive_metrics t).cols ↔
      x ∈ t.cols ∨ x = "death_rate" ∨
        ("population" ∈ t.cols ∧ (x = "cases_per_million" ∨ x = "deaths_per_million")) := by
  rw [derive_metrics_cols]
  by_cases h : "population" ∈ t.cols
  · rw [if_pos h]
    simp only [mem_addCol, h, true_and]
    tauto
  · simp only [if_neg h, mem_addCol]
    constructor
    · exact fun hx => hx.elim (fun a => Or.inl a) (fun a => Or.inr (Or.inl a))
    · rintro (hx | hx | ⟨hp, _⟩)
      · exact Or.inl hx
      · exact Or.inr hx
      · exact absurd hp h

/-! ### Claim C4 — ingestion on double failure -/

/-- Claim C4 counterexample: with both the remote fetch and the local read
failing, the ingestion cell completes normally (`Except.ok`), leaves the
frame unbound (`none`), and merely prints the error messages — it does not
fail with an exception carrying both causes. -/
theorem claim4_counterexample :
    load_observations (Except.error "connection refused") (Except.error "file not found") =
      Except.ok (none,
        ["Error loading data from URL: connection refused",
         "Attempting to load from local file...",
         "Error loading data from local file: file not found",
         "Please ensure the owid-covid-data.csv file is in your current working directory."]) :=
  rfl

/-- Claim C4 amended: for every pair of failure causes, the ingestion cell
catches both exceptions, prints the four messages (which include both
causes), raises nothing, and leaves the data frame unbound; any later
stage that needs the table has no table to run on. -/
theorem claim4_amended (e e2 : String) :
    load_observations (Except.error e) (Except.error e2) =
      Except.ok (none,
        ["Error loading data from URL: " ++ e,
         "Attempting to load from local file...",
         "Error loading data from local file: " ++ e2,
         "Please ensure the owid-covid-data.csv file is in your current working directory."]) :=
  rfl

/-! ### Claim C7 — scoping to a set of entities -/

/-- Claim C7: scoping keeps exactly the rows whose location is in the
requested set, preserves all columns and the relative row order, and a
requested entity absent from the table yields zero rows for that entity
rather than an error (the scoping function is total). -/
theorem claim7_scoping (t : Table) (names : List String) :
    (scope_to_entities t names).cols = t.cols ∧
    (scope_to_entities t names).rows.Sublist t.rows ∧
    (∀ r : Row, r ∈ (scope_to_entities t names).rows ↔ r ∈ t.rows ∧ r.location ∈ names) ∧
    (∀ x : String, (∀ r ∈ t.rows, r.location ≠ x) →
      ((scope_to_entities t names).rows.filter (fun r => r.location == x)) = []) := by
  refine ⟨rfl, List.filter_sublist _, ?_, ?_⟩
  · intro r
    simp [scope_to_entities, List.mem_filter]
  · intro x hx
    rw [List.filter_eq_nil_iff]
    intro r hr
    have hrt : r ∈ t.rows := (List.mem_filter.mp hr).1
    simp [hx r hrt]

/-- Claim C7 witness: the scoping characterisation at a concrete table and
a request containing one present and one absent entity. -/
theorem claim7_witness :
    (scope_to_entities exT7 ["United States", "Wakanda"]).cols = exT7.cols ∧
    (scope_to_entities exT7 ["United States", "Wakanda"]).rows.Sublist exT7.rows ∧
    (∀ r : Row, r ∈ (scope_to_entities exT7 ["United States", "Wakanda"]).rows ↔
      r ∈ exT7.rows ∧ r.location ∈ ["United States", "Wakanda"]) ∧
    (∀ x : String, (∀ r ∈ exT7.rows, r.location ≠ x) →
      ((scope_to_entities exT7 ["United States", "Wakanda"]).rows.filter
        (fun r => r.location == x)) = []) :=
  claim7_scoping exT7 ["United States", "Wakanda"]

/-! ### Claim C6 — completeness filtering -/

/-- Claim C6: completeness filtering retains a row exactly when every
required column of that row is non-null, and on the two-row example table
(first row with a null `total_deaths`) it returns exactly the second row. -/
theorem claim6_completeness :
    (∀ (t : Table) (req : List String), (∀ c ∈ req, c ∈ t.cols) →
      ∃ t' : Table, filter_complete t req = .ok t' ∧ t'.cols = t.cols ∧
        ∀ r : Row, r ∈ t'.rows ↔ r ∈ t.rows ∧ ∀ c ∈ req, (r.get c).isNan = false) ∧
    filter_complete exT6 ["total_cases", "total_deaths"] =
      .ok ⟨["total_cases", "total_deaths"],
           [⟨"A", 2, [("total_cases", .fin 5), ("total_deaths", .fin 1)]⟩]⟩ := by
  constructor
  · intro t req hreq
    have hall : req.all (fun c => decide (c ∈ t.cols)) = true := by
      rw [List.all_eq_true]
      exact fun c hc => decide_eq_true (hreq c hc)
    refine ⟨{ t with rows := t.rows.filter (fun r => req.all (fun c => !(r.get c).isNan)) },
      by simp [filter_complete, hall], rfl, ?_⟩
    intro r
    simp [List.mem_filter, List.all_eq_true]
  · decide

/-- Claim C6 witness: the completeness characterisation instantiated at
the two-row example table. -/
theorem claim6_witness :
    ∃ t' : Table, filter_complete exT6 ["total_cases", "total_deaths"] = .ok t' ∧
      t'.cols = exT6.cols ∧
      ∀ r : Row, r ∈ t'.rows ↔ r ∈ exT6.rows ∧
        ∀ c ∈ ["total_cases", "total_deaths"], (r.get c).isNan = false :=
  claim6_completeness.1 exT6 ["total_cases", "total_deaths"] (by decide)

/-! ### Claim C9 — idempotence of metric derivation -/

theorem derive_metrics_pop (t : Table) :
    "population" ∈ (derive_metrics t).cols ↔ "population" ∈ t.cols := by
  rw [mem_derive_metrics_cols]
  constructor
  · rintro (h | h | ⟨hp, _⟩)
    · exact h
    · exact absurd h (by decide)
    · exact hp
  · exact Or.inl

/-- Claim C9: metric derivation is idempotent — applying it to its own
output returns that output unchanged, because every derived cell is
recomputed from the base columns only, which derivation never modifies. -/
theorem claim9_idempotent (t : Table) :
    derive_metrics (derive_metrics t) = derive_metrics t := by
  have hiff := derive_metrics_pop t
  have hpop : decide ("population" ∈ (derive_metrics t).cols) =
      decide ("population" ∈ t.cols) := decide_eq_decide.mpr hiff
  have hrows : (derive_metrics (derive_metrics t)).rows = (derive_metrics t).rows := by
    rw [derive_metrics_rows, derive_metrics_rows, hpop, List.map_map]
    exact List.map_congr_left (fun r _ => deriveRow_idem _ r)
  have hcols : (derive_metrics (derive_metrics t)).cols = (derive_metrics t).cols := by
    rw [derive_metrics_cols (derive_metrics t)]
    by_cases h : "population" ∈ t.cols
    · rw [if_pos (hiff.mpr h)]
      rw [addCol_of_mem _ _ ((mem_derive_metrics_cols t "death_rate").mpr (Or.inr (Or.inl rfl)))]
      rw [addCol_of_mem _ _ ((mem_derive_metrics_cols t "cases_per_million").mpr
        (Or.inr (Or.inr ⟨h, Or.inl rfl⟩)))]
      rw [addCol_of_mem _ _ ((mem_derive_metrics_cols t "deaths_per_million").mpr
        (Or.inr (Or.inr ⟨h, Or.inr rfl⟩)))]
    · rw [if_neg (fun hh => h (hiff.mp hh))]
      rw [addCol_of_mem _ _ ((mem_derive_metrics_cols t "death_rate").mpr (Or.inr (Or.inl rfl)))]
  calc derive_metrics (derive_metrics t)
      = ⟨(derive_metrics (derive_metrics t)).cols, (derive_metrics (derive_metrics t)).rows⟩ :=
        rfl
    _ = ⟨(derive_metrics t).cols, (derive_metrics t).rows⟩ := by rw [hcols, hrows]
    _ = derive_metrics t := rfl

/-! ### Claim C1 — the death-rate column -/

/-- Claim C1 counterexample: a row with `total_cases = 0` and
`total_deaths = 3` (both non-null, so it survives completeness filtering)
gets a `death_rate` of positive infinity, not the not-a-number value the
claim requires for every zero-cases row. -/
theorem claim1_counterexample :
    filter_complete exT1 ["total_cases", "total_deaths"] = .ok exT1 ∧
    exT1.rows.map (fun r => r.get "total_cases") = [EV.fin 0] ∧
    (derive_metrics exT1).rows.map (fun r => r.get "death_rate") = [EV.inf true] ∧
    EV.inf true ≠ EV.nan := by decide

/-- Claim C1 amended: for a row with non-null `total_cases = c` and
`total_deaths = d`, the derived `death_rate` is not-a-number exactly when
both `c = 0` and `d = 0`; when `c = 0` and `d ≠ 0` it is a signed
infinity; otherwise it equals `d / c * 100`. -/
theorem claim1_death_rate (t : Table) (i : Nat) (c d : ℚ) (h : i < t.rows.length)
    (hc : (t.rows.get ⟨i, h⟩).get "total_cases" = EV.fin c)
    (hd : (t.rows.get ⟨i, h⟩).get "total_deaths" = EV.fin d) :
    ((derive_metrics t).rows[i]?.map (fun r => r.get "death_rate")) =
      some (if c = 0 then (if d = 0 then EV.nan else EV.inf (decide (0 < d)))
            else EV.fin (d / c * 100)) := by
  rw [derive_metrics_rows, List.getElem?_map, List.getElem?_eq_getElem h]
  have hget : t.rows[i] = t.rows.get ⟨i, h⟩ := rfl
  simp only [Option.map_some', deriveRow_death_rate, hget]
  simp only [drVal, hc, hd]
  by_cases hc0 : c = 0
  · by_cases hd0 : d = 0
    · simp [evDiv, evMul, hc0, hd0]
    · have h100 : ((100 : ℚ) = 0) = False := by norm_num
      have hlt : decide ((0 : ℚ) < 100) = true := decide_eq_true (by norm_num)
      simp [evDiv, evMul, hc0, hd0, h100, hlt]
  · simp [evDiv, evMul, hc0]

/-- Claim C1 witness: the amended characterisation instantiated at the
zero-cases, three-deaths row. -/
theorem claim1_witness :
    ((derive_metrics exT1).rows[0]?.map (fun r => r.get "death_rate")) =
      some (if (0 : ℚ) = 0 then (if (3 : ℚ) = 0 then EV.nan else EV.inf (decide ((0 : ℚ) < 3)))
            else EV.fin (3 / 0 * 100)) :=
  claim1_death_rate exT1 0 0 3 (by decide) (by decide) (by decide)

/-! ### Claim C8 — per-million columns and the population check -/

/-- Claim C8: the per-million columns appear in the derived table exactly
when the input has a `population` column; when it does they are computed
as count over population times one million; when it does not, derivation
still processes every row (no error) and each row's per-million bindings
pass through untouched — absent in the input means absent in the output,
with no sentinel fill. -/
theorem claim8_per_million (t : Table)
    (hc : "cases_per_million" ∉ t.cols) (hd : "deaths_per_million" ∉ t.cols) :
    ("cases_per_million" ∈ (derive_metrics t).cols ↔ "population" ∈ t.cols) ∧
    ("deaths_per_million" ∈ (derive_metrics t).cols ↔ "population" ∈ t.cols) ∧
    (derive_metrics t).rows.length = t.rows.length ∧
    (∀ (i : Nat) (h : i < t.rows.length), "population" ∈ t.cols →
      ((derive_metrics t).rows[i]?.map (fun r => r.get "cases_per_million")) =
          some (cpmVal (t.rows.get ⟨i, h⟩)) ∧
      ((derive_metrics t).rows[i]?.map (fun r => r.get "deaths_per_million")) =
          some (dpmVal (t.rows.get ⟨i, h⟩))) ∧
    (∀ (i : Nat) (h : i < t.rows.length), "population" ∉ t.cols →
      ((derive_metrics t).rows[i]?.map (fun r => lookupV r.vals "cases_per_million")) =
          some (lookupV (t.rows.get ⟨i, h⟩).vals "cases_per_million") ∧
      ((derive_metrics t).rows[i]?.map (fun r => lookupV r.vals "deaths_per_million")) =
          some (lookupV (t.rows.get ⟨i, h⟩).vals "deaths_per_million")) := by
  refine ⟨?_, ?_, ?_, ?_, ?_⟩
  · rw [mem_derive_metrics_cols]
    constructor
    · rintro (hx | hx | ⟨hp, _⟩)
      · exact absurd hx hc
      · exact absurd hx (by decide)
      · exact hp
    · exact fun hp => Or.inr (Or.inr ⟨hp, Or.inl rfl⟩)
  · rw [mem_derive_metrics_cols]
    constructor
    · rintro (hx | hx | ⟨hp, _⟩)
      · exact absurd hx hd
      · exact absurd hx (by decide)
      · exact hp
    · exact fun hp => Or.inr (Or.inr ⟨hp, Or.inr rfl⟩)
  · rw [derive_metrics_rows, List.length_map]
  · intro i h hp
    rw [derive_metrics_rows, List.getElem?_map, List.getElem?_eq_getElem h]
    have hget : t.rows[i] = t.rows.get ⟨i, h⟩ := rfl
    simp only [Option.map_some', hget, decide_eq_true hp]
    exact ⟨by rw [deriveRow_cases_per_million], by rw [deriveRow_deaths_per_million]⟩
  · intro i h hp
    rw [derive_metrics_rows, List.getElem?_map, List.getElem?_eq_getElem h]
    have hget : t.rows[i] = t.rows.get ⟨i, h⟩ := rfl
    have hfalse : decide ("population" ∈ t.cols) = false := decide_eq_false hp
    simp only [Option.map_some', hget, hfalse]
    exact ⟨by rw [deriveRow_false_lookup _ _ (by decide)],
      by rw [deriveRow_false_lookup _ _ (by decide)]⟩

/-- Claim C8 witness: the per-million characterisation instantiated at a
one-row table that has a population column. -/
theorem claim8_witness :
    ("cases_per_million" ∈ (derive_metrics exT8p).cols ↔ "population" ∈ exT8p.cols) ∧
    ("deaths_per_million" ∈ (derive_metrics exT8p).cols ↔ "population" ∈ exT8p.cols) ∧
    (derive_metrics exT8p).rows.length = exT8p.rows.length ∧
    (∀ (i : Nat) (h : i < exT8p.rows.length), "population" ∈ exT8p.cols →
      ((derive_metrics exT8p).rows[i]?.map (fun r => r.get "cases_per_million")) =
          some (cpmVal (exT8p.rows.get ⟨i, h⟩)) ∧
      ((derive_metrics exT8p).rows[i]?.map (fun r => r.get "deaths_per_million")) =
          some (dpmVal (exT8p.rows.get ⟨i, h⟩))) ∧
    (∀ (i : Nat) (h : i < exT8p.rows.length), "population" ∉ exT8p.cols →
      ((derive_metrics exT8p).rows[i]?.map (fun r => lookupV r.vals "cases_per_million")) =
          some (lookupV (exT8p.rows.get ⟨i, h⟩).vals "cases_per_million") ∧
      ((derive_metrics exT8p).rows[i]?.map (fun r => lookupV r.vals "deaths_per_million")) =
          some (lookupV (exT8p.rows.get ⟨i, h⟩).vals "deaths_per_million")) :=
  claim8_per_million exT8p (by decide) (by decide)

/-! ### Rolling-average locality lemmas -/

theorem entitySeries_append_foreign (t : Table) (col loc : String) (r : Row)
    (h : r.location ≠ loc) :
    entitySeries { t with rows := t.rows ++ [r] } col loc = entitySeries t col loc := by
  simp only [entitySeries, List.filter_append, List.filter_cons, List.filter_nil,
    beq_eq_false_iff_ne.mpr h, Bool.false_eq_true, if_false, List.append_nil]

theorem entitySeries_cons_foreign (t : Table) (col loc : String) (r : Row)
    (h : r.location ≠ loc) :
    entitySeries { t with rows := r :: t.rows } col loc = entitySeries t col loc := by
  simp only [entitySeries, List.filter_cons, beq_eq_false_iff_ne.mpr h,
    Bool.false_eq_true, if_false]

/-! ### Claim C2 — the 7-day rolling average -/

/-- Claim C2 counterexample: an entity whose seven date-ordered rows all
survive case/death completeness filtering but whose first `new_cases`
cell is null has seven leading not-a-number smoothed entries, not the six
the claim requires. -/
theorem claim2_counterexample :
    filter_complete exT2 ["total_cases", "total_deaths"] = .ok exT2 ∧
    (entitySeries exT2 "new_cases" "A").length = 7 ∧
    leadingNans (smoothedSeries exT2 "A") = 7 := by decide

/-- Claim C2 amended: for every table and entity, the smoothed series has
the same length as the entity's `new_cases` series; its first six entries
are not-a-number; every entry from position six on is the mean (sum
divided by seven, not-a-number propagating) of the trailing window of
exactly seven same-entity `new_cases` cells; and rows of any other entity,
prepended or appended to the table, leave the series unchanged — no
window ever mixes two entities. -/
theorem claim2_rolling :
    (∀ (t : Table) (loc : String),
        (smoothedSeries t loc).length = (entitySeries t "new_cases" loc).length) ∧
    (∀ (t : Table) (loc : String) (i : Nat), i < 6 →
        i < (entitySeries t "new_cases" loc).length →
        (smoothedSeries t loc)[i]? = some EV.nan) ∧
    (∀ (t : Table) (loc : String) (i : Nat), 6 ≤ i →
        i < (entitySeries t "new_cases" loc).length →
        (windowAt (entitySeries t "new_cases" loc) i 7).length = 7 ∧
        (smoothedSeries t loc)[i]? =
          some (evDiv ((windowAt (entitySeries t "new_cases" loc) i 7).foldl evAdd (EV.fin 0))
                      (EV.fin 7))) ∧
    (∀ (t : Table) (loc : String) (r : Row), r.location ≠ loc →
        smoothedSeries { t with rows := t.rows ++ [r] } loc = smoothedSeries t loc ∧
        smoothedSeries { t with rows := r :: t.rows } loc = smoothedSeries t loc) := by
  refine ⟨?_, ?_, ?_, ?_⟩
  · intro t loc
    exact rollingMean_length 7 _
  · intro t loc i h6 hlen
    rw [smoothedSeries, rollingMean_getElem 7 _ i hlen, if_pos (by omega)]
  · intro t loc i h6 hlen
    refine ⟨windowAt_length _ _ _ (by omega) hlen, ?_⟩
    rw [smoothedSeries, rollingMean_getElem 7 _ i hlen, if_neg (by omega)]
    norm_num
  · intro t loc r h
    constructor
    · rw [smoothedSeries, smoothedSeries, entitySeries_append_foreign t _ _ _ h]
    · rw [smoothedSeries, smoothedSeries, entitySeries_cons_foreign t _ _ _ h]

/-- Claim C2 witness: the window characterisation instantiated at
position six of a concrete entity series. -/
theorem claim2_witness :
    (windowAt (entitySeries exT10 "new_cases" "A") 6 7).length = 7 ∧
    (smoothedSeries exT10 "A")[6]? =
      some (evDiv ((windowAt (entitySeries exT10 "new_cases" "A") 6 7).foldl evAdd (EV.fin 0))
                  (EV.fin 7)) :=
  claim2_rolling.2.2.1 exT10 "A" 6 (by decide) (by decide)

/-! ### Claim C3 — date ordering before order-dependent computations -/

/-- Claim C3 counterexample: on a table whose rows are not in date order,
the smoothed series the notebook computes differs from the one computed
on the date-sorted table, so the rolling-average computation runs on
source row order and was not preceded by an explicit sort. -/
theorem claim3_counterexample :
    ¬ List.Sorted rowLE exT3.rows ∧
    smoothedSeries exT3 "A" ≠ smoothedSeries (sortByDate exT3) "A" := by
  constructor
  · decide
  · simp +decide only [smoothedSeries, entitySeries, rollingMean, windowAt, sortByDate, exT3,
      mkRow, Row.get, lookupV, evAdd, evDiv, List.range_succ, List.insertionSort,
      List.orderedInsert, rowLE, List.filter, List.map, List.take, List.drop, List.foldl,
      List.length, ne_eq, List.cons.injEq]
    norm_num

theorem sortByDate_idem (t : Table) : sortByDate (sortByDate t) = sortByDate t := by
  simp only [sortByDate,
    List.Sorted.insertionSort_eq (List.sorted_insertionSort rowLE t.rows)]

/-- Claim C3 amended: the pipeline establishes ascending date order before
the latest-per-entity extraction — that stage sorts its input itself, its
rows are consumed in ascending date order, and pre-sorting the table does
not change its result — but the rolling-average computation consumes rows
in source order: on a concrete unsorted table its output differs from the
output on the date-sorted table. -/
theorem claim3_ordering :
    (∀ t : Table, List.Sorted rowLE (sortByDate t).rows) ∧
    (∀ (t : Table) (loc : String), latestRow (sortByDate t) loc = latestRow t loc) ∧
    smoothedSeries exT3 "A" ≠ smoothedSeries (sortByDate exT3) "A" := by
  refine ⟨?_, ?_, ?_⟩
  · intro t
    exact List.sorted_insertionSort rowLE t.rows
  · intro t loc
    unfold latestRow entitySorted
    rw [sortByDate_idem]
    rfl
  · simp +decide only [smoothedSeries, entitySeries, rollingMean, windowAt, sortByDate, exT3,
      mkRow, Row.get, lookupV, evAdd, evDiv, List.range_succ, List.insertionSort,
      List.orderedInsert, rowLE, List.filter, List.map, List.take, List.drop, List.foldl,
      List.length, ne_eq, List.cons.injEq]
    norm_num

/-- Claim C3 witness: the sortedness part instantiated at the concrete
unsorted table. -/
theorem claim3_witness : List.Sorted rowLE (sortByDate exT3).rows :=
  claim3_ordering.1 exT3

/-! ### Claim C5 — latest-per-entity extraction -/

/-- Claim C5 counterexample: the entity's unique maximum-date row has a
null `new_cases` cell, yet the extracted latest row carries `new_cases`
from the earlier row — the extraction does not return the maximum-date
row; it fills each column with its last non-null value. -/
theorem claim5_counterexample :
    exT5.rows.map (fun r => r.date) = [1, 2] ∧
    (exT5.rows.filter (fun r => r.date == 2)).map (fun r => r.get "new_cases") = [EV.nan] ∧
    (latestRow exT5 "A").map (fun r => r.get "new_cases") = some (EV.fin 5) ∧
    EV.fin 5 ≠ EV.nan := by decide

theorem lastNonNan_of_last (l : List EV) (x : EV) (h : l.getLast? = some x)
    (hn : x.isNan = false) : lastNonNan l = x := by
  have hne : l ≠ [] := by
    intro he
    subst he
    simp [List.getLast?] at h
  have hx : l.getLast hne = x := by
    rw [List.getLast?_eq_getLast l hne] at h
    exact Option.some.inj h
  conv_lhs => rw [← List.dropLast_append_getLast hne]
  unfold lastNonNan
  rw [List.filter_append]
  have hone : List.filter (fun v => !v.isNan) [l.getLast hne] = [l.getLast hne] := by
    simp [List.filter, hx, hn]
  rw [hone, List.getLast?_concat]
  simp [hx]

/-- Claim C5 amended: when every cell of the last row of the entity's
date-sorted sequence is non-null, latest-per-entity extraction returns
exactly that row's values — the row with the maximum date, and under
date ties the last row of the sorted sequence; the extraction is a pure
function of the table, so repeated runs agree by construction. -/
theorem claim5_latest (t : Table) (loc : String) (hne : entitySorted t loc ≠ [])
    (hcols : ∀ c ∈ t.cols, (((entitySorted t loc).getLast hne).get c).isNan = false) :
    ∃ lrow : Row, latestRow t loc = some lrow ∧ lrow.location = loc ∧
      lrow.date = ((entitySorted t loc).getLast hne).date ∧
      ∀ c ∈ t.cols, lrow.get c = ((entitySorted t loc).getLast hne).get c := by
  have hlast : (entitySorted t loc).getLast? = some ((entitySorted t loc).getLast hne) :=
    List.getLast?_eq_getLast _ hne
  have hlr : latestRow t loc =
      some ⟨loc, ((entitySorted t loc).getLast hne).date,
        t.cols.map (fun c => (c, lastNonNan ((entitySorted t loc).map (fun r => r.get c))))⟩ := by
    unfold latestRow
    rw [hlast]
  refine ⟨_, hlr, rfl, rfl, ?_⟩
  intro c hcmem
  have hlook : lookupV
      (t.cols.map (fun c' => (c', lastNonNan ((entitySorted t loc).map (fun r => r.get c'))))) c =
      some (lastNonNan ((entitySorted t loc).map (fun r => r.get c))) :=
    lookupV_map_self t.cols _ c hcmem
  rw [Row.get_of_lookup _ _ _ hlook]
  apply lastNonNan_of_last
  · rw [List.getLast?_map, hlast]
    rfl
  · exact hcols c hcmem

/-- Claim C5 witness: the latest-per-entity characterisation instantiated
at a two-row entity whose maximum-date row is fully non-null. -/
theorem claim5_witness :
    ∃ lrow : Row, latestRow exT5w "A" = some lrow ∧ lrow.location = "A" ∧
      lrow.date = ((entitySorted exT5w "A").getLast (by decide)).date ∧
      ∀ c ∈ exT5w.cols, lrow.get c = ((entitySorted exT5w "A").getLast (by decide)).get c :=
  claim5_latest exT5w "A" (by decide) (by decide)

/-! ### Claim C10 — nulls surviving the filter poison later windows -/

/-- Claim C10: a not-a-number cell anywhere in a trailing window makes the
smoothed entry at that position not-a-number; and concretely, a table
whose rows all pass the case/death completeness filter can keep a null
`new_cases` cell, which makes the smoothed entry at a position past the
first six not-a-number. -/
theorem claim10_null_window :
    (∀ (t : Table) (loc : String) (i : Nat), 6 ≤ i →
        i < (entitySeries t "new_cases" loc).length →
        EV.nan ∈ windowAt (entitySeries t "new_cases" loc) i 7 →
        (smoothedSeries t loc)[i]? = some EV.nan) ∧
    (filter_complete exT10 ["total_cases", "total_deaths"] = .ok exT10 ∧
     (exT10.rows.map (fun r => (r.get "new_cases").isNan)).count true = 1 ∧
     (smoothedSeries exT10 "A")[7]? = some EV.nan) := by
  constructor
  · intro t loc i h6 hlen hmem
    rw [smoothedSeries, rollingMean_getElem 7 _ i hlen, if_neg (by omega),
      foldl_evAdd_of_mem_nan _ _ hmem]
    rfl
  · decide

/-- Claim C10 witness: the window-poisoning law instantiated at position
seven of the concrete filtered table. -/
theorem claim10_witness : (smoothedSeries exT10 "A")[7]? = some EV.nan :=
  claim10_null_window.1 exT10 "A" 7 (by decide) (by decide) (by decide)

end CovidTracker
